import Mathlib

/-! Verification development for the `nano_client` Go client (cryptocode/api-go).

The request/response engine of `src/nano_client/session.go` is shallowly
embedded.  External effects — the protobuf marshaller, the URI parser, the
dialled socket — enter as explicit oracles (a write-error script, an input byte
stream, codec functions), while the control flow, the framing, the error
construction and the session state follow the Go source line by line.
-/

/-- Error value of `session.go` (type `Error`): numeric code, human-readable
message, and category string. -/
structure Error where
  code : Nat
  message : String
  category : String
deriving DecidableEq

/-- Session state (`session.go`, type `Session`).  The `net.Conn` handle is
modelled as an abstract numeric id, present only when a dial succeeded. -/
structure Session where
  connected : Bool
  connection : Option Nat
  lastError : Option Error
  timeoutReadWrite : Nat
  timeoutConnection : Nat
deriving DecidableEq

/-- A parsed URI as `net/url.Parse` delivers it: scheme, host, path. -/
structure Uri where
  scheme : String
  host : String
  path : String
deriving DecidableEq

/-- The socket, as a test double: `writeErrs` scripts the outcome of each
successive `Write` call (`none` = success), `input` is the byte stream the peer
sends back.  `io.ReadFull` delivers exactly the requested count or fails. -/
structure Conn where
  writeErrs : List (Option String)
  input : List Nat
deriving DecidableEq

/-- Observable trace of one `Query` call on the socket: the bytes of every
attempted write in order, for every `io.ReadFull` the pair
(requested count, delivered count), for every `proto.Unmarshal` of a response
frame the pair (declared frame length, bytes handed over), the number of
read/write deadline refreshes, and whether some read came up short. -/
structure Wire where
  conn : Conn
  writes : List (List Nat)
  reads : List (Nat × Nat)
  unmarshals : List (Nat × List Nat)
  deadlineUpdates : Nat
  shortRead : Bool
deriving DecidableEq

/-- Fresh trace over a given socket. -/
def initWire (c : Conn) : Wire :=
  { conn := c, writes := [], reads := [], unmarshals := [], deadlineUpdates := 0,
    shortRead := false }

/-- One `connection.Write` call: the attempt is recorded, the next scripted
outcome is consumed; an exhausted script means success. -/
def connWrite (w : Wire) (bs : List Nat) : Option String × Wire :=
  (w.conn.writeErrs.head?.getD none,
   { w with conn := { w.conn with writeErrs := w.conn.writeErrs.tail },
            writes := w.writes ++ [bs] })

/-- One `io.ReadFull(connection, buf)` call for a buffer of `n` bytes: exactly
`n` bytes are delivered from the stream, or the call fails (short read). -/
def connRead (w : Wire) (n : Nat) : Option (List Nat) × Wire :=
  (if n ≤ w.conn.input.length then some (w.conn.input.take n) else none,
   if n ≤ w.conn.input.length then
     { w with conn := { w.conn with input := w.conn.input.drop n },
              reads := w.reads ++ [(n, n)] }
   else
     { w with reads := w.reads ++ [(n, w.conn.input.length)],
              shortRead := true })

/-- `updateWriteDeadline` / `updateReadDeadline`: only the fact that a deadline
refresh touched the socket is observable in the model. -/
def updDeadline (w : Wire) : Wire :=
  { w with deadlineUpdates := w.deadlineUpdates + 1 }

/-- Records one `proto.Unmarshal` invocation on a response frame, with the
frame length that was declared on the wire. -/
def recUnmarshal (w : Wire) (n : Nat) (bs : List Nat) : Wire :=
  { w with unmarshals := w.unmarshals ++ [(n, bs)] }

/-- `binary.BigEndian.PutUint32` of a length: the 4-byte big-endian encoding. -/
def be32 (n : Nat) : List Nat :=
  [n / 2 ^ 24 % 256, n / 2 ^ 16 % 256, n / 2 ^ 8 % 256, n % 256]

/-- `binary.BigEndian.Uint32` of a 4-byte buffer. -/
def beToNat (l : List Nat) : Nat :=
  match l with
  | [a, b, c, d] => ((a * 256 + b) * 256 + c) * 256 + d
  | _ => 0

/-- Removes the first occurrence of `pat` from a character list, as
`strings.Replace(s, pat, "", 1)` does. -/
def stripFirstOcc (pat : List Char) : List Char → List Char
  | [] => []
  | c :: rest =>
      if pat.isPrefixOf (c :: rest) then (c :: rest).drop pat.length
      else c :: stripFirstOcc pat rest

/-- The fixed namespace/request marker stripped from message names
(session.go line 113). -/
def queryPfx : List Char := "nano.api.query_".toList

/-- `strings.ToUpper(strings.Replace(proto.MessageName(query), "nano.api.query_", "", 1))`
(session.go line 113): derives the protocol request-type identifier. -/
def queryTypeName (name : String) : String :=
  String.mk ((stripFirstOcc queryPfx name.toList).map Char.toUpper)

/-- A protobuf message as the session sees it: its fully-qualified declared
name (`proto.MessageName`) and the result of `proto.Marshal` on it. -/
structure ProtoMessage where
  name : String
  marshal : Except String (List Nat)

/-- The external schema/codec collaborators used by `Query`:
`nano_api.QueryType_value` (a Go map, so an absent key yields 0, which is the
`QueryType_UNKOWN` sentinel), `proto.Marshal` applied to the
`nano_api.Query{Type: t}` header, and `proto.Unmarshal` into a fresh
`nano_api.Response` header (`none` = success, `some m` = error message). -/
structure Codec where
  queryTypeValue : String → Nat
  marshalHeader : Nat → Except String (List Nat)
  unmarshalRespHeader : List Nat → Option String

/-- Outcome of a `Query` call: either the goroutine panics, or the call
returns its pair (result message, error). -/
inductive QOut where
  | panicked (msg : String)
  | ret (result : Option Unit) (err : Option Error)
deriving DecidableEq

/-- A finished `Query` call: its outcome, the socket trace, and the Session's
`LastError` field after the call (the only Session field `Query` mutates). -/
structure QueryRun where
  out : QOut
  wire : Wire
  lastError : Option Error
deriving DecidableEq

/-- Terminates a `Query` with an error: the error is stored in `LastError` and
the pair `(nil, LastError)` is returned. -/
def finishErr (w : Wire) (e : Error) : QueryRun :=
  { out := QOut.ret none (some e), wire := w, lastError := some e }

/-- Terminates a successful `Query`: `LastError` stays nil and `(nil, nil)` is
returned. -/
def finishOk (w : Wire) : QueryRun :=
  { out := QOut.ret none none, wire := w, lastError := none }

/-- Error message stood in for the `io.ReadFull` error on a truncated stream. -/
def eofMsg : String := "unexpected EOF"

/-- Session.go lines 175–191: read the 4-byte payload length, read exactly
that many bytes as the response payload frame, and unmarshal them into the
caller-supplied response message.  The unmarshal failure is categorised
`"Network"` in the source (line 188). -/
def recvPayload (unmarshalResp : List Nat → Option String) (w : Wire) : QueryRun :=
  let r8 := connRead (updDeadline w) 4
  match r8.1 with
  | none => finishErr r8.2 ⟨1, eofMsg, "Network"⟩
  | some lenBytes2 =>
    let r9 := connRead (updDeadline r8.2) (beToNat lenBytes2)
    match r9.1 with
    | none => finishErr r9.2 ⟨1, eofMsg, "Network"⟩
    | some respBytes =>
      let w10 := recUnmarshal r9.2 (beToNat lenBytes2) respBytes
      match unmarshalResp respBytes with
      | some m => finishErr w10 ⟨1, m, "Network"⟩
      | none => finishOk w10

/-- Session.go lines 159–191: read the 4-byte response-header length, read
exactly that many bytes as the response header frame, unmarshal it into a
fresh `nano_api.Response`, then continue with the payload frame.  The header
unmarshal failure is categorised `"Network"` in the source (line 173). -/
def recvResponse (cd : Codec) (unmarshalResp : List Nat → Option String)
    (w : Wire) : QueryRun :=
  let r5 := connRead (updDeadline w) 4
  match r5.1 with
  | none => finishErr r5.2 ⟨1, eofMsg, "Network"⟩
  | some lenBytes =>
    let r6 := connRead (updDeadline r5.2) (beToNat lenBytes)
    match r6.1 with
    | none => finishErr r6.2 ⟨1, eofMsg, "Network"⟩
    | some respHeaderBytes =>
      let w7 := recUnmarshal r6.2 (beToNat lenBytes) respHeaderBytes
      match cd.unmarshalRespHeader respHeaderBytes with
      | some m => finishErr w7 ⟨1, m, "Network"⟩
      | none => recvPayload unmarshalResp w7

/-- Session.go lines 143–199: `proto.Marshal` the request payload (`qm` is its
result), write its 4-byte big-endian length and then the payload bytes, then
read the response. -/
def sendPayload (cd : Codec) (unmarshalResp : List Nat → Option String)
    (qm : Except String (List Nat)) (w : Wire) : QueryRun :=
  match qm with
  | Except.error m => finishErr w ⟨1, m, "Marshalling"⟩
  | Except.ok msgBuffer =>
    let r3 := connWrite (updDeadline w) (be32 msgBuffer.length)
    match r3.1 with
    | some m => finishErr r3.2 ⟨1, m, "Network"⟩
    | none =>
      let r4 := connWrite (updDeadline r3.2) msgBuffer
      match r4.1 with
      | some m => finishErr r4.2 ⟨1, m, "Network"⟩
      | none => recvResponse cd unmarshalResp r4.2

/-- Session.go lines 131–199: write the 4-byte big-endian length of the
serialized header, then the header bytes.  Kept faithfully from the source:
the result of the header-bytes write (line 141) is assigned to `err` but
line 143 (`msg_buffer, err := proto.Marshal(query)`) shadows `err`, so a
failure of that write is silently discarded and the exchange continues. -/
def sendHeader (cd : Codec) (unmarshalResp : List Nat → Option String)
    (qm : Except String (List Nat)) (headerData : List Nat) (w0 : Wire) : QueryRun :=
  let r1 := connWrite (updDeadline w0) (be32 headerData.length)
  match r1.1 with
  | some m => finishErr r1.2 ⟨1, m, "Network"⟩
  | none =>
    let w2 := (connWrite (updDeadline r1.2) headerData).2
    sendPayload cd unmarshalResp qm w2

/-- `Session.Query` (session.go lines 107–204): reset `LastError`; fail fast
when not connected; derive the request-type identifier and panic on the
`UNKOWN` sentinel; marshal the `nano_api.Query` header; then run the framed
write/read exchange (the nested if/else chain of the source, embedded as the
step functions above). -/
def query (cd : Codec) (unmarshalResp : List Nat → Option String)
    (s : Session) (q : ProtoMessage) (c : Conn) : QueryRun :=
  let w0 := initWire c
  if s.connected then
    let qt := queryTypeName q.name
    let typeCode := cd.queryTypeValue qt
    if typeCode = 0 then
      { out := QOut.panicked ("Invalid query type:" ++ qt), wire := w0,
        lastError := none }
    else
      match cd.marshalHeader typeCode with
      | Except.error m => finishErr w0 ⟨1, m, "Marshalling"⟩
      | Except.ok headerData => sendHeader cd unmarshalResp q.marshal headerData w0
  else
    finishErr (initWire c) ⟨1, "Not connected", "Network"⟩

/-- `Session.Connect` (session.go lines 54–93).  `parsed` is the outcome of
`url.Parse` on the connection string; `dial` is the dialler, mapping the final
(scheme, host) pair to a connection id or an error message. -/
def connect (parsed : Option Uri) (dial : String → String → Except String Nat)
    (s : Session) : Session × Option Error :=
  let s0 := { s with lastError := none }
  match parsed with
  | none =>
      let s1 := { s0 with
        lastError := some ⟨1, "Invalid connection string", "Connection"⟩ }
      (s1, s1.lastError)
  | some uri =>
      let sh :=
        if uri.scheme = "local" then ("unix", uri.path, (none : Option Error))
        else if uri.scheme ≠ "tcp" then
          (uri.scheme, uri.host,
           some (⟨1, "Invalid schema: Use tcp or local.", "Connection"⟩ : Error))
        else (uri.scheme, uri.host, none)
      let s1 := { s0 with lastError := sh.2.2 }
      let s2 := { s1 with
        timeoutConnection := if s1.timeoutConnection = 0 then 10 else s1.timeoutConnection,
        timeoutReadWrite := if s1.timeoutReadWrite = 0 then 30 else s1.timeoutReadWrite }
      match dial sh.1 sh.2.1 with
      | Except.error m =>
          let s3 := { s2 with lastError := some ⟨1, m, "Connection"⟩,
                              connected := false }
          (s3, s3.lastError)
      | Except.ok con =>
          let s3 := { s2 with connection := some con, connected := true }
          (s3, s3.lastError)

/-- Modelled from the spec: `Session.Close` is called by the example programs
(`examples/ping/main.go`, the simple example) but `src/nano_client/session.go`
does not define it.  Spec §4.2: if connected, close the underlying handle
(wrapping any close-time I/O error as a `Connection` `ProtocolError`) and set
connected to false; otherwise a no-op returning no error.  `closeResult` is the
I/O outcome of closing the handle. -/
def close (closeResult : Option String) (s : Session) : Session × Option Error :=
  if s.connected then
    ({ s with connected := false },
     closeResult.map (fun m => (⟨1, m, "Connection"⟩ : Error)))
  else (s, none)

/-- Does a 4-byte buffer have the shape of the protocol preamble
`['N', 0, major, minor]` described by the spec (the magic lead byte 'N' is 78)? -/
def isPreamble : List Nat → Bool
  | [a, b, _, _] => a == 78 && b == 0
  | _ => false

/-- Boolean check applied to the `LastError` the call left behind; an absent
error passes vacuously. -/
def lastErrorSatisfies (p : Error → Bool) (r : QueryRun) : Bool :=
  match r.lastError with
  | none => true
  | some e => p e

/-- Result component of a returned pair (`none` for a panic). -/
def retResultOf : QOut → Option Unit
  | QOut.panicked _ => none
  | QOut.ret r _ => r

/-- Error component of a returned pair (`none` for a panic). -/
def retErrOf : QOut → Option Error
  | QOut.panicked _ => none
  | QOut.ret _ e => e

/-- Boolean check applied to an optional error; an absent error passes
vacuously (statement helper). -/
def optErrSatisfies (p : Error → Bool) : Option Error → Bool
  | none => true
  | some e => p e

/-- A wire trace in which every recorded response-frame unmarshal received
exactly its declared number of bytes, every `io.ReadFull` delivered exactly
what was requested, and no read came up short (statement helper). -/
def wireFramesOk (w : Wire) : Prop :=
  (∀ a b, (a, b) ∈ w.unmarshals → b.length = a) ∧
  (∀ a b, (a, b) ∈ w.reads → b = a) ∧ w.shortRead = false

/-- The frame contract of a finished call: every `proto.Unmarshal` of a
response frame received exactly the declared number of bytes; if no read came
up short, every `io.ReadFull` delivered exactly the requested count; and if
some read did come up short, the call ended with the `Network` read error
(statement helper). -/
def runFramesOk (r : QueryRun) : Prop :=
  (∀ a b, (a, b) ∈ r.wire.unmarshals → b.length = a) ∧
  (r.wire.shortRead = false → ∀ a b, (a, b) ∈ r.wire.reads → b = a) ∧
  (r.wire.shortRead = true → r.lastError = some ⟨1, eofMsg, "Network"⟩)

/-- The return contract of `Query`: the first component of the returned pair
is nil, and the second is exactly the Session's `LastError` field
(statement helper). -/
def retOkShape (r : QueryRun) : Prop :=
  retResultOf r.out = none ∧ retErrOf r.out = r.lastError

/-- A connected session (test fixture). -/
def sConn : Session := ⟨true, some 0, none, 30, 10⟩

/-- A session that was never connected (test fixture). -/
def sNoConn : Session := ⟨false, none, none, 0, 0⟩

/-- A ping request message whose payload serializes to three bytes
(test fixture). -/
def qPing : ProtoMessage := ⟨"nano.api.query_ping", Except.ok [1, 2, 3]⟩

/-- A codec whose type enumeration resolves every identifier to code 2 and
whose header for type `t` serializes to the two bytes `[8, t]`
(test fixture). -/
def cdPing : Codec := ⟨fun _ => 2, fun t => Except.ok [8, t], fun _ => none⟩

/-- Like `cdPing`, but unmarshalling the response header always fails with
message "bad header" (test fixture). -/
def cdBadHeader : Codec :=
  ⟨fun _ => 2, fun t => Except.ok [8, t], fun _ => some "bad header"⟩

/-- A codec whose type enumeration resolves every identifier to the
`QueryType_UNKOWN` sentinel 0 (test fixture). -/
def cdUnknown : Codec := ⟨fun _ => 0, fun _ => Except.ok [], fun _ => none⟩

/-- A response message whose unmarshal always succeeds (test fixture). -/
def uOk : List Nat → Option String := fun _ => none

/-- When `pat` starts the list, removing its first occurrence is exactly
dropping the pattern-length head. -/
theorem stripFirstOcc_of_pfx (pat l : List Char) (h : pat.isPrefixOf l = true) :
    stripFirstOcc pat l = l.drop pat.length := by
  cases l with
  | nil => simp [stripFirstOcc]
  | cons c rest => simp [stripFirstOcc, h]

/-- Every error `recvPayload` can leave behind satisfies any predicate that
holds of all `Network` errors. -/
theorem recvPayload_lastError (p : Error → Bool) (u : List Nat → Option String)
    (w : Wire) (hN : ∀ m, p ⟨1, m, "Network"⟩ = true) :
    optErrSatisfies p (recvPayload u w).lastError = true := by
  simp only [recvPayload]
  repeat' split
  all_goals simp_all [finishErr, finishOk, optErrSatisfies, hN]

/-- Every error `recvResponse` can leave behind satisfies any predicate that
holds of all `Network` errors. -/
theorem recvResponse_lastError (cd : Codec) (p : Error → Bool)
    (u : List Nat → Option String) (w : Wire)
    (hN : ∀ m, p ⟨1, m, "Network"⟩ = true) :
    optErrSatisfies p (recvResponse cd u w).lastError = true := by
  simp only [recvResponse]
  repeat' split
  all_goals first
    | exact recvPayload_lastError p u _ hN
    | simp_all [finishErr, finishOk, optErrSatisfies, hN]

/-- Every error `sendPayload` can leave behind is a `Network` error or the
`Marshalling` wrap of a payload-marshal failure. -/
theorem sendPayload_lastError (cd : Codec) (p : Error → Bool)
    (u : List Nat → Option String) (qm : Except String (List Nat)) (w : Wire)
    (hN : ∀ m, p ⟨1, m, "Network"⟩ = true)
    (hM : ∀ m, qm = Except.error m → p ⟨1, m, "Marshalling"⟩ = true) :
    optErrSatisfies p (sendPayload cd u qm w).lastError = true := by
  simp only [sendPayload]
  repeat' split
  all_goals first
    | exact recvResponse_lastError cd p u _ hN
    | simp_all [finishErr, finishOk, optErrSatisfies, hN]

/-- Every error `sendHeader` can leave behind is a `Network` error or the
`Marshalling` wrap of a payload-marshal failure. -/
theorem sendHeader_lastError (cd : Codec) (p : Error → Bool)
    (u : List Nat → Option String) (qm : Except String (List Nat))
    (hdata : List Nat) (w0 : Wire)
    (hN : ∀ m, p ⟨1, m, "Network"⟩ = true)
    (hM : ∀ m, qm = Except.error m → p ⟨1, m, "Marshalling"⟩ = true) :
    optErrSatisfies p (sendHeader cd u qm hdata w0).lastError = true := by
  simp only [sendHeader]
  repeat' split
  all_goals first
    | exact sendPayload_lastError cd p u qm _ hN hM
    | simp_all [finishErr, finishOk, optErrSatisfies, hN]

/-- Master error-category lemma for `Query`: every error the call leaves in
`LastError` is a `Network` error or the `Marshalling` wrap of a marshal
failure of the header or the payload. -/
theorem query_lastError (cd : Codec) (p : Error → Bool)
    (u : List Nat → Option String) (s : Session) (q : ProtoMessage) (c : Conn)
    (hN : ∀ m, p ⟨1, m, "Network"⟩ = true)
    (hHM : ∀ m, cd.marshalHeader (cd.queryTypeValue (queryTypeName q.name)) =
      Except.error m → p ⟨1, m, "Marshalling"⟩ = true)
    (hQM : ∀ m, q.marshal = Except.error m → p ⟨1, m, "Marshalling"⟩ = true) :
    optErrSatisfies p (query cd u s q c).lastError = true := by
  simp only [query]
  repeat' split
  all_goals first
    | exact sendHeader_lastError cd p u q.marshal _ _ hN hQM
    | simp_all [finishErr, finishOk, optErrSatisfies, hN]

/-- The payload-reading phase performs no writes. -/
theorem recvPayload_writes (u : List Nat → Option String) (w : Wire) :
    (recvPayload u w).wire.writes = w.writes := by
  simp only [recvPayload]
  repeat' split
  all_goals simp_all [finishErr, finishOk, connRead, updDeadline, recUnmarshal,
    apply_ite Wire.writes]

/-- The response-reading phase performs no writes. -/
theorem recvResponse_writes (cd : Codec) (u : List Nat → Option String) (w : Wire) :
    (recvResponse cd u w).wire.writes = w.writes := by
  simp only [recvResponse]
  repeat' split
  all_goals first
    | (rw [recvPayload_writes]
       simp [connRead, updDeadline, recUnmarshal, apply_ite Wire.writes])
    | simp_all [finishErr, finishOk, connRead, updDeadline, recUnmarshal,
        apply_ite Wire.writes]

/-- The payload-sending phase only appends to the write trace. -/
theorem sendPayload_writes (cd : Codec) (u : List Nat → Option String)
    (qm : Except String (List Nat)) (w : Wire) :
    w.writes <+: (sendPayload cd u qm w).wire.writes := by
  simp only [sendPayload]
  repeat' split
  all_goals first
    | (rw [recvResponse_writes]
       simp [connWrite, updDeadline, List.append_assoc, List.prefix_append])
    | simp_all [finishErr, finishOk, connWrite, updDeadline, List.append_assoc,
        List.prefix_append]

/-- The first write of the exchange is the 4-byte big-endian length of the
serialized header; everything later only appends after it. -/
theorem sendHeader_writes (cd : Codec) (u : List Nat → Option String)
    (qm : Except String (List Nat)) (hdata : List Nat) (w0 : Wire) :
    w0.writes ++ [be32 hdata.length] <+: (sendHeader cd u qm hdata w0).wire.writes := by
  simp only [sendHeader]
  repeat' split
  all_goals first
    | (refine List.IsPrefix.trans ?_ (sendPayload_writes cd u qm _)
       simp [connWrite, updDeadline, List.append_assoc, List.prefix_append])
    | simp_all [finishErr, finishOk, connWrite, updDeadline, List.append_assoc,
        List.prefix_append]

/-- A terminal error result keeps the frame contract when the incoming trace
satisfies it. -/
theorem runFramesOk_finishErr (W : Wire) (e : Error)
    (hu : ∀ a b, (a, b) ∈ W.unmarshals → b.length = a)
    (hr : W.shortRead = false → ∀ a b, (a, b) ∈ W.reads → b = a)
    (he : W.shortRead = true → e = ⟨1, eofMsg, "Network"⟩) :
    runFramesOk (finishErr W e) := by
  refine ⟨hu, hr, fun hs => ?_⟩
  simp [finishErr, he hs]

/-- A successful result keeps the frame contract when the incoming trace
satisfies it. -/
theorem runFramesOk_finishOk (W : Wire)
    (hu : ∀ a b, (a, b) ∈ W.unmarshals → b.length = a)
    (hr : W.shortRead = false → ∀ a b, (a, b) ∈ W.reads → b = a)
    (hs : W.shortRead = false) :
    runFramesOk (finishOk W) := by
  refine ⟨hu, hr, fun hx => ?_⟩
  simp [finishOk] at hx ⊢
  simp [hx] at hs

/-- The payload-reading phase keeps the frame contract. -/
theorem recvPayload_frames (u : List Nat → Option String) (w : Wire)
    (h : wireFramesOk w) : runFramesOk (recvPayload u w) := by
  obtain ⟨h1, h2, h3⟩ := h
  simp only [recvPayload, connRead, updDeadline, recUnmarshal]
  by_cases c1 : 4 ≤ w.conn.input.length
  · simp only [if_pos c1]
    by_cases c2 : beToNat (w.conn.input.take 4) ≤ (w.conn.input.drop 4).length
    · simp only [if_pos c2]
      have c2l : beToNat (w.conn.input.take 4) ≤ w.conn.input.length - 4 := by
        simpa using c2
      have hu : ∀ a b, (a, b) ∈ w.unmarshals ++
          [(beToNat (w.conn.input.take 4),
            (w.conn.input.drop 4).take (beToNat (w.conn.input.take 4)))] →
          b.length = a := by
        intro a b hm
        rcases List.mem_append.1 hm with hx | hx
        · exact h1 a b hx
        · simp at hx
          simp [hx.1, hx.2, List.length_take]
          omega
      have hr : ∀ a b, (a, b) ∈ w.reads ++ [(4, 4)] ++
          [(beToNat (w.conn.input.take 4), beToNat (w.conn.input.take 4))] → b = a := by
        intro a b hm
        rcases List.mem_append.1 hm with hx | hx
        · rcases List.mem_append.1 hx with hy | hy
          · exact h2 a b hy
          · simp at hy
            simp [hy.1, hy.2]
        · simp at hx
          simp [hx.1, hx.2]
      split
      · apply runFramesOk_finishErr
        · exact hu
        · intro hs
          exact hr
        · intro hs
          rw [h3] at hs
          cases hs
      · apply runFramesOk_finishOk
        · exact hu
        · intro hs
          exact hr
        · exact h3
    · simp only [if_neg c2]
      apply runFramesOk_finishErr
      · exact h1
      · simp
      · intro hs
        rfl
  · simp only [if_neg c1]
    apply runFramesOk_finishErr
    · exact h1
    · simp
    · intro hs
      rfl

/-- The response-reading phase keeps the frame contract. -/
theorem recvResponse_frames (cd : Codec) (u : List Nat → Option String) (w : Wire)
    (h : wireFramesOk w) : runFramesOk (recvResponse cd u w) := by
  obtain ⟨h1, h2, h3⟩ := h
  simp only [recvResponse, connRead, updDeadline, recUnmarshal]
  by_cases c1 : 4 ≤ w.conn.input.length
  · simp only [if_pos c1]
    by_cases c2 : beToNat (w.conn.input.take 4) ≤ (w.conn.input.drop 4).length
    · simp only [if_pos c2]
      have hu : ∀ a b, (a, b) ∈ w.unmarshals ++
          [(beToNat (w.conn.input.take 4),
            (w.conn.input.drop 4).take (beToNat (w.conn.input.take 4)))] →
          b.length = a := by
        intro a b hm
        rcases List.mem_append.1 hm with hx | hx
        · exact h1 a b hx
        · simp at hx
          simp [hx.1, hx.2, List.length_take]
          simp at c2
          omega
      have hr : ∀ a b, (a, b) ∈ w.reads ++ [(4, 4)] ++
          [(beToNat (w.conn.input.take 4), beToNat (w.conn.input.take 4))] → b = a := by
        intro a b hm
        rcases List.mem_append.1 hm with hx | hx
        · rcases List.mem_append.1 hx with hy | hy
          · exact h2 a b hy
          · simp at hy
            simp [hy.1, hy.2]
        · simp at hx
          simp [hx.1, hx.2]
      split
      · apply runFramesOk_finishErr
        · exact hu
        · intro hs
          exact hr
        · intro hs
          rw [h3] at hs
          cases hs
      · apply recvPayload_frames
        exact ⟨hu, hr, h3⟩
    · simp only [if_neg c2]
      apply runFramesOk_finishErr
      · exact h1
      · simp
      · intro hs
        rfl
  · simp only [if_neg c1]
    apply runFramesOk_finishErr
    · exact h1
    · simp
    · intro hs
      rfl

/-- The payload-sending phase keeps the frame contract (writes do not touch
reads, unmarshals, or the short-read flag). -/
theorem sendPayload_frames (cd : Codec) (u : List Nat → Option String)
    (qm : Except String (List Nat)) (w : Wire)
    (h : wireFramesOk w) : runFramesOk (sendPayload cd u qm w) := by
  obtain ⟨h1, h2, h3⟩ := h
  simp only [sendPayload, connWrite, updDeadline]
  repeat' split
  all_goals first
    | (apply recvResponse_frames
       exact ⟨h1, h2, h3⟩)
    | exact runFramesOk_finishErr _ _ h1 (fun _ => h2)
        (fun hs => Bool.noConfusion (h3 ▸ hs))

/-- The header-sending phase keeps the frame contract. -/
theorem sendHeader_frames (cd : Codec) (u : List Nat → Option String)
    (qm : Except String (List Nat)) (hdata : List Nat) (w0 : Wire)
    (h : wireFramesOk w0) : runFramesOk (sendHeader cd u qm hdata w0) := by
  obtain ⟨h1, h2, h3⟩ := h
  simp only [sendHeader, connWrite, updDeadline]
  repeat' split
  all_goals first
    | (apply sendPayload_frames
       exact ⟨h1, h2, h3⟩)
    | exact runFramesOk_finishErr _ _ h1 (fun _ => h2)
        (fun hs => Bool.noConfusion (h3 ▸ hs))

/-- Master frame lemma: every `Query` call obeys the frame contract. -/
theorem query_frames (cd : Codec) (u : List Nat → Option String) (s : Session)
    (q : ProtoMessage) (c : Conn) : runFramesOk (query cd u s q c) := by
  simp only [query]
  repeat' split
  all_goals first
    | (apply sendHeader_frames
       exact ⟨fun a b hm => absurd hm (List.not_mem_nil _),
              fun a b hm => absurd hm (List.not_mem_nil _), rfl⟩)
    | exact ⟨fun a b hm => absurd hm (List.not_mem_nil _),
        fun hs a b hm => absurd hm (List.not_mem_nil _),
        fun hs => Bool.noConfusion hs⟩

/-- The payload-reading phase obeys the return contract. -/
theorem recvPayload_ret (u : List Nat → Option String) (w : Wire) :
    retOkShape (recvPayload u w) := by
  simp only [recvPayload]
  repeat' split
  all_goals simp [retOkShape, finishErr, finishOk, retResultOf, retErrOf]

/-- The response-reading phase obeys the return contract. -/
theorem recvResponse_ret (cd : Codec) (u : List Nat → Option String) (w : Wire) :
    retOkShape (recvResponse cd u w) := by
  simp only [recvResponse]
  repeat' split
  all_goals first
    | exact recvPayload_ret u _
    | simp [retOkShape, finishErr, finishOk, retResultOf, retErrOf]

/-- The payload-sending phase obeys the return contract. -/
theorem sendPayload_ret (cd : Codec) (u : List Nat → Option String)
    (qm : Except String (List Nat)) (w : Wire) : retOkShape (sendPayload cd u qm w) := by
  simp only [sendPayload]
  repeat' split
  all_goals first
    | exact recvResponse_ret cd u _
    | simp [retOkShape, finishErr, finishOk, retResultOf, retErrOf]

/-- The header-sending phase obeys the return contract. -/
theorem sendHeader_ret (cd : Codec) (u : List Nat → Option String)
    (qm : Except String (List Nat)) (hdata : List Nat) (w0 : Wire) :
    retOkShape (sendHeader cd u qm hdata w0) := by
  simp only [sendHeader]
  repeat' split
  all_goals first
    | exact sendPayload_ret cd u qm _
    | simp [retOkShape, finishErr, finishOk, retResultOf, retErrOf]

/-- Master return lemma: every `Query` call returns `(nil, LastError)`. -/
theorem query_ret (cd : Codec) (u : List Nat → Option String) (s : Session)
    (q : ProtoMessage) (c : Conn) : retOkShape (query cd u s q c) := by
  simp only [query]
  repeat' split
  all_goals first
    | exact sendHeader_ret cd u q.marshal _ _
    | simp [retOkShape, finishErr, finishOk, retResultOf, retErrOf]

/-- Claim C1, counterexample.  Concrete connected run: the header serializes
to the two bytes `[8, 2]`, and the peer answers with `[78, 0, 99, 0]` — under
the claim this is a response preamble with magic 'N' (78), encoding 0 and
peer major version 99, which exceeds the supported major version, so the
claim demands an `API`-category failure.  The code instead (a) first writes
`[0, 0, 0, 2]`, the big-endian header length, which is not a preamble, and
(b) reads the four peer bytes as a frame length and fails with a `Network`
short-read error, not an `API` error.  This falsifies both halves of the
claim at one input. -/
theorem c1_counterexample :
    (query cdPing uOk sConn qPing ⟨[], [78, 0, 99, 0]⟩).wire.writes.head?
      = some [0, 0, 0, 2] ∧
    isPreamble [0, 0, 0, 2] = false ∧
    (query cdPing uOk sConn qPing ⟨[], [78, 0, 99, 0]⟩).lastError
      = some ⟨1, eofMsg, "Network"⟩ ∧
    ("Network" : String) ≠ "API" := by decide

/-- Claim C1, amended: for every Query call on a connected Session whose
header marshals successfully to `hd`, no preamble is written or read — the
first bytes written to the connection are the 4-byte big-endian length of the
serialized header, and no API-version validation occurs (the call never
produces an error of category "API"). -/
theorem c1_no_preamble (cd : Codec) (u : List Nat → Option String) (s : Session)
    (q : ProtoMessage) (c : Conn) (hd : List Nat)
    (hconn : s.connected = true)
    (hnz : cd.queryTypeValue (queryTypeName q.name) ≠ 0)
    (hm : cd.marshalHeader (cd.queryTypeValue (queryTypeName q.name)) = Except.ok hd) :
    (query cd u s q c).wire.writes.head? = some (be32 hd.length) ∧
    optErrSatisfies (fun e => e.category != "API") (query cd u s q c).lastError
      = true := by
  constructor
  · obtain ⟨t, ht⟩ := sendHeader_writes cd u q.marshal hd (initWire c)
    simp only [query, hconn, hm, if_true, if_neg hnz]
    rw [← ht]
    simp [initWire]
  · apply query_lastError
    · intro m
      rfl
    · intro m hcontra
      rfl
    · intro m hcontra
      rfl

/-- Claim C1, witness: the amended theorem applied to a concrete connected
run with a two-byte header. -/
theorem c1_no_preamble_witness :
    (query cdPing uOk sConn qPing
        ⟨[], [0, 0, 0, 1, 9, 0, 0, 0, 2, 7, 7]⟩).wire.writes.head?
      = some (be32 2) ∧
    optErrSatisfies (fun e => e.category != "API")
      (query cdPing uOk sConn qPing
        ⟨[], [0, 0, 0, 1, 9, 0, 0, 0, 2, 7, 7]⟩).lastError = true :=
  c1_no_preamble cdPing uOk sConn qPing ⟨[], [0, 0, 0, 1, 9, 0, 0, 0, 2, 7, 7]⟩
    [8, 2] rfl (by decide) rfl

/-- Claim C2 (code bug), evaluated at the failing input: the write script
makes the second `Write` — the one sending the serialized header bytes —
fail with "peer closed" while every other write and read succeeds and the
peer sends a well-formed framed response.  The claim requires the exchange
to stop at that step with a `ProtocolError` describing the failure; instead
the call keeps going — all four writes are attempted, all four reads are
performed — and it returns success (`(nil, nil)`), because session.go
line 141 assigns the write error to `err` and line 143
(`msg_buffer, err := proto.Marshal(query)`) immediately shadows it. -/
theorem c2_header_write_error_ignored :
    (query cdPing uOk sConn qPing
        ⟨[none, some "peer closed", none, none],
         [0, 0, 0, 1, 9, 0, 0, 0, 1, 7]⟩).out = QOut.ret none none ∧
    (query cdPing uOk sConn qPing
        ⟨[none, some "peer closed", none, none],
         [0, 0, 0, 1, 9, 0, 0, 0, 1, 7]⟩).wire.writes
      = [[0, 0, 0, 2], [8, 2], [0, 0, 0, 3], [1, 2, 3]] ∧
    (query cdPing uOk sConn qPing
        ⟨[none, some "peer closed", none, none],
         [0, 0, 0, 1, 9, 0, 0, 0, 1, 7]⟩).wire.reads
      = [(4, 4), (1, 1), (4, 4), (1, 1)] := by decide

/-- Claim C3, counterexample.  Concrete run in which unmarshalling the
response header frame fails with message "bad header": the resulting
`ProtocolError` has category "Network", not "Marshalling" as the claim
states (session.go line 173). -/
theorem c3_counterexample :
    (query cdBadHeader uOk sConn qPing ⟨[], [0, 0, 0, 1, 9]⟩).lastError
      = some ⟨1, "bad header", "Network"⟩ ∧
    ("Network" : String) ≠ "Marshalling" := by decide

/-- Claim C3, amended: when the request header and payload marshal
successfully, every error a Query call leaves behind — including failures
while deserializing the response header frame or the response payload frame —
has category "Network"; category "Marshalling" arises only from serialization
failures of the request header or payload. -/
theorem c3_deserialize_error_category (cd : Codec) (u : List Nat → Option String)
    (s : Session) (q : ProtoMessage) (c : Conn) (hd mb : List Nat)
    (hm : cd.marshalHeader (cd.queryTypeValue (queryTypeName q.name)) = Except.ok hd)
    (hq : q.marshal = Except.ok mb) :
    optErrSatisfies (fun e => e.category == "Network")
      (query cd u s q c).lastError = true := by
  apply query_lastError
  · intro m
    rfl
  · intro m hcontra
    rw [hm] at hcontra
    simp at hcontra
  · intro m hcontra
    rw [hq] at hcontra
    simp at hcontra

/-- Claim C3, witness: the amended theorem applied to the concrete run whose
response-header deserialization fails. -/
theorem c3_deserialize_error_category_witness :
    optErrSatisfies (fun e => e.category == "Network")
      (query cdBadHeader uOk sConn qPing ⟨[], [0, 0, 0, 1, 9]⟩).lastError = true :=
  c3_deserialize_error_category cdBadHeader uOk sConn qPing ⟨[], [0, 0, 0, 1, 9]⟩
    [8, 2] [1, 2, 3] rfl rfl

/-- Claim C4, counterexample.  The scheme "udp" is neither tcp nor local, so
Connect records the Invalid-schema error — but it still dials the
unrecognized scheme (session.go lines 66–89), and when that dial succeeds
(as a udp dial does), the handle is stored and `connected` becomes `true`,
while the Invalid-schema error is returned.  The claim says the connected
flag stays false and no handle is stored. -/
theorem c4_counterexample :
    (connect (some ⟨"udp", "localhost:7077", ""⟩) (fun _ _ => Except.ok 7)
        ⟨false, none, none, 0, 0⟩).2
      = some ⟨1, "Invalid schema: Use tcp or local.", "Connection"⟩ ∧
    (connect (some ⟨"udp", "localhost:7077", ""⟩) (fun _ _ => Except.ok 7)
        ⟨false, none, none, 0, 0⟩).1.connected = true ∧
    (connect (some ⟨"udp", "localhost:7077", ""⟩) (fun _ _ => Except.ok 7)
        ⟨false, none, none, 0, 0⟩).1.connection = some 7 := by decide

/-- Claim C4, amended: for every connection string whose URI scheme is
neither tcp nor local, Connect returns a ProtocolError with code 1 and
category "Connection", but it still dials the unrecognized scheme: when that
dial fails the connected flag stays false (and the dial error is returned),
and when the dial succeeds the handle is stored and connected becomes true
while the Invalid-schema error is still returned. -/
theorem c4_invalid_scheme (uri : Uri) (dial : String → String → Except String Nat)
    (s : Session) (h1 : uri.scheme ≠ "tcp") (h2 : uri.scheme ≠ "local") :
    (∀ m, dial uri.scheme uri.host = Except.error m →
      (connect (some uri) dial s).2 = some ⟨1, m, "Connection"⟩ ∧
      (connect (some uri) dial s).1.connected = false) ∧
    (∀ n, dial uri.scheme uri.host = Except.ok n →
      (connect (some uri) dial s).2
        = some ⟨1, "Invalid schema: Use tcp or local.", "Connection"⟩ ∧
      (connect (some uri) dial s).1.connected = true ∧
      (connect (some uri) dial s).1.connection = some n) := by
  constructor
  · intro m hm
    simp [connect, h1, h2, hm]
  · intro n hn
    simp [connect, h1, h2, hn]

/-- Claim C4, witness: the amended theorem applied to the scheme "udp" with a
succeeding dial. -/
theorem c4_invalid_scheme_witness :
    (connect (some ⟨"udp", "h", ""⟩) (fun _ _ => Except.ok 9)
        ⟨false, none, none, 0, 0⟩).1.connection = some 9 ∧
    (connect (some ⟨"udp", "h", ""⟩) (fun _ _ => Except.ok 9)
        ⟨false, none, none, 0, 0⟩).1.connected = true ∧
    (connect (some ⟨"udp", "h", ""⟩) (fun _ _ => Except.ok 9)
        ⟨false, none, none, 0, 0⟩).2
      = some ⟨1, "Invalid schema: Use tcp or local.", "Connection"⟩ := by
  have h := (c4_invalid_scheme ⟨"udp", "h", ""⟩ (fun _ _ => Except.ok 9)
      ⟨false, none, none, 0, 0⟩ (by decide) (by decide)).2 9 rfl
  exact ⟨h.2.2, h.2.1, h.1⟩

/-- Claim C5: a Query call on a Session whose connected flag is false fails
immediately with the ProtocolError (Network, "Not connected") and performs no
operation whatsoever on the socket: the whole run equals the fresh trace —
no writes, no reads, no deadline updates, the connection untouched. -/
theorem c5_not_connected (cd : Codec) (u : List Nat → Option String) (s : Session)
    (q : ProtoMessage) (c : Conn) (h : s.connected = false) :
    query cd u s q c =
      { out := QOut.ret none (some ⟨1, "Not connected", "Network"⟩),
        wire := initWire c,
        lastError := some ⟨1, "Not connected", "Network"⟩ } := by
  simp [query, h, finishErr]

/-- Claim C5, witness: the theorem applied to a never-connected session. -/
theorem c5_not_connected_witness :
    query cdPing uOk sNoConn qPing ⟨[], []⟩ =
      { out := QOut.ret none (some ⟨1, "Not connected", "Network"⟩),
        wire := initWire ⟨[], []⟩,
        lastError := some ⟨1, "Not connected", "Network"⟩ } :=
  c5_not_connected cdPing uOk sNoConn qPing ⟨[], []⟩ rfl

/-- Claim C6: every length-prefixed frame read during a Query is delivered
in full — every `proto.Unmarshal` of a response frame receives exactly the
declared number of bytes, never partial data; when no read is short, every
`io.ReadFull` delivers exactly the requested count; and when the stream is
truncated mid-frame, the call fails with the Network short-read error (and,
by the first conjunct, Deserialize was never invoked on the partial bytes). -/
theorem c6_exact_frames (cd : Codec) (u : List Nat → Option String) (s : Session)
    (q : ProtoMessage) (c : Conn) : runFramesOk (query cd u s q c) :=
  query_frames cd u s q c

/-- Claim C6, witness: on a stream whose response-header frame declares 5
bytes but carries only 2, the call fails with the Network short-read error. -/
theorem c6_exact_frames_witness :
    (query cdPing uOk sConn qPing ⟨[], [0, 0, 0, 5, 1, 2]⟩).lastError
      = some ⟨1, eofMsg, "Network"⟩ :=
  (c6_exact_frames cdPing uOk sConn qPing ⟨[], [0, 0, 0, 5, 1, 2]⟩).2.2 (by decide)

/-- Claim C7: the protocol request-type identifier is derived by stripping
the fixed name marker "nano.api.query_" (15 characters) from the message's
declared name and upper-casing the remainder; and when the identifier
resolves to the `QueryType_UNKOWN` sentinel (0), the call panics with
"Invalid query type:" and the identifier, before any bytes are written or
read (the wire trace is still fresh). -/
theorem c7_resolve_and_panic (cd : Codec) (u : List Nat → Option String)
    (s : Session) (q : ProtoMessage) (c : Conn) (hconn : s.connected = true) :
    (queryPfx.isPrefixOf q.name.toList = true →
      queryTypeName q.name
        = String.mk ((q.name.toList.drop 15).map Char.toUpper)) ∧
    (cd.queryTypeValue (queryTypeName q.name) = 0 →
      (query cd u s q c).out
        = QOut.panicked ("Invalid query type:" ++ queryTypeName q.name) ∧
      (query cd u s q c).wire = initWire c) := by
  constructor
  · intro hp
    unfold queryTypeName
    rw [stripFirstOcc_of_pfx _ _ hp]
    have h15 : queryPfx.length = 15 := by decide
    rw [h15]
  · intro h0
    simp [query, hconn, h0]

/-- Claim C7, witness: "nano.api.query_ping" resolves to "PING", and a codec
whose enumeration knows no identifiers makes the call panic with the fresh
wire trace untouched. -/
theorem c7_resolve_and_panic_witness :
    queryTypeName "nano.api.query_ping" = "PING" ∧
    (query cdUnknown uOk sConn qPing ⟨[], []⟩).out
      = QOut.panicked "Invalid query type:PING" ∧
    (query cdUnknown uOk sConn qPing ⟨[], []⟩).wire = initWire ⟨[], []⟩ := by
  have h := c7_resolve_and_panic cdUnknown uOk sConn qPing ⟨[], []⟩ rfl
  refine ⟨?_, ?_, (h.2 rfl).2⟩
  · rw [show ("nano.api.query_ping" : String) = qPing.name from rfl, h.1 (by decide)]
    decide
  · rw [(h.2 rfl).1, h.1 (by decide)]
    decide

/-- Claim C8 (Close is modelled from the spec, since the examples call it but
session.go under src does not define it): Close on a session whose connected
flag is false is a no-op returning no error; calling Close twice in a row
leaves the session exactly as one call does, and the second call returns no
error; Close on a connected session sets connected to false. -/
theorem c8_close_idempotent (s : Session) (r1 r2 : Option String) :
    (s.connected = false → close r1 s = (s, none)) ∧
    (close r2 (close r1 s).1).1 = (close r1 s).1 ∧
    (close r2 (close r1 s).1).2 = none ∧
    (s.connected = true → (close r1 s).1.connected = false) := by
  cases h : s.connected <;> simp [close, h]

/-- Claim C8, witness: Close of a never-connected session, via the theorem. -/
theorem c8_close_idempotent_witness :
    close none sNoConn = (sNoConn, none) :=
  (c8_close_idempotent sNoConn none none).1 rfl

/-- Claim C10: every Query call that returns (i.e. does not panic) returns
`nil` as its first component and exactly the Session's `LastError` field as
its second, and the run is independent of the `LastError` the Session held
before the call — the field is reset at the start. -/
theorem c10_query_returns (cd : Codec) (u : List Nat → Option String)
    (s : Session) (q : ProtoMessage) (c : Conn) (x : Option Error) :
    retOkShape (query cd u s q c) ∧
    query cd u { s with lastError := x } q c = query cd u s q c :=
  ⟨query_ret cd u s q c, rfl⟩
